import Mathlib

/-!
Verification of `pl_rankings_update.py` (Premier League standings scraper).

The script fetches standings and fixture JSON from the Pulselive API,
decides whether a matchweek (round) is complete, parses the 20-row league
table, enriches it with next-opponent data, and appends one snapshot per
completed matchweek to an append-only CSV history file.

We embed the pure decision logic shallowly:
- network fetches become explicit arguments (the JSON payloads / the list of
  fixtures returned for a matchweek);
- the CSV history file becomes an `Option (List FullRow)` (`none` = file
  absent, `some rows` = file present with those rows);
- Python `RuntimeError` raised on malformed payloads corresponds to the
  spec's `FormatError`; fallible functions return `Except Err _`;
- a Python JSON value obtained via `.get(key)` (which may be `None`) is an
  `Option`; a value obtained by direct indexing `j[key]` is a total field.
-/

/-- A team object inside a fixture, as read with `.get`: every field may be
absent (`m.get("homeTeam", {})` defaults to an empty dict whose `.get`
returns `None`). -/
structure TeamObj where
  id : Option String
  shortName : Option String
  name : Option String
deriving DecidableEq

/-- One fixture from the matchweek-matches endpoint (`data[]` element):
`period` via `m.get("period")`, home/away team objects via
`m.get("homeTeam", {})` / `m.get("awayTeam", {})`. -/
structure MatchObj where
  period : Option String
  homeTeam : TeamObj
  awayTeam : TeamObj
deriving DecidableEq

/-- The team identifiers collected by `is_matchweek_complete`: for each match,
the home id then the away id, each added only when present
(`if home.get("id") is not None: team_ids.add(str(home["id"]))`).
Ids are modelled as the strings the Python code adds to its set. -/
def collectTeamIds (ms : List MatchObj) : List String :=
  ms.flatMap fun m => m.homeTeam.id.toList ++ m.awayTeam.id.toList

/-- `is_matchweek_complete` (the second, effective definition in the source,
lines 117-167), with the fetched match list passed in: returns `false` on an
empty match list, `false` if any match's period differs from `"FullTime"`,
and otherwise tests whether 20 distinct team ids appear across the fixtures. -/
def is_matchweek_complete (ms : List MatchObj) : Bool :=
  if ms.isEmpty then false
  else if ms.any (fun m => m.period != some "FullTime") then false
  else (collectTeamIds ms).dedup.length == 20

theorem length_collectTeamIds_le (ms : List MatchObj) :
    (collectTeamIds ms).length ≤ 2 * ms.length := by
  induction ms with
  | nil => simp [collectTeamIds]
  | cons m ms ih =>
    simp only [collectTeamIds, List.flatMap_cons, List.length_append] at ih ⊢
    have h1 : m.homeTeam.id.toList.length ≤ 1 := by cases m.homeTeam.id <;> simp
    have h2 : m.awayTeam.id.toList.length ≤ 1 := by cases m.awayTeam.id <;> simp
    simp only [List.length_cons]
    omega

/-- C1: the completion check returns true iff the fixture list is non-empty,
every fixture's period equals the `"FullTime"` sentinel, and the number of
distinct team identifiers across the fixtures' home and away teams is 20. -/
theorem is_matchweek_complete_iff (ms : List MatchObj) :
    is_matchweek_complete ms = true ↔
      ms ≠ [] ∧ (∀ m ∈ ms, m.period = some "FullTime") ∧
        (collectTeamIds ms).toFinset.card = 20 := by
  rw [List.card_toFinset]
  unfold is_matchweek_complete
  by_cases hemp : ms.isEmpty
  · simp [hemp, List.isEmpty_iff.mp hemp]
  · rw [if_neg hemp]
    by_cases hany : ms.any (fun m => m.period != some "FullTime")
    · rw [if_pos hany]
      simp only [List.any_eq_true, bne_iff_ne, ne_eq] at hany
      obtain ⟨m, hm, hne⟩ := hany
      constructor
      · intro h; exact absurd h (by simp)
      · rintro ⟨-, hall, -⟩; exact absurd (hall m hm) hne
    · rw [if_neg hany]
      simp only [List.any_eq_true, bne_iff_ne, ne_eq, not_exists, not_and,
        not_not] at hany
      simp only [beq_iff_eq]
      constructor
      · intro h
        exact ⟨List.isEmpty_iff.not.mp hemp, fun m hm => hany m hm, h⟩
      · rintro ⟨-, -, h⟩; exact h

/-- C2: any fixture list with fewer than 10 fixtures, or containing a fixture
whose period is not `"FullTime"`, is judged incomplete.  (The effective code
no longer tests the fixture count directly, but fewer than 10 fixtures can
contribute at most 18 distinct team ids, so the distinct-team test fails.) -/
theorem is_matchweek_complete_false_of_short_or_unfinished (ms : List MatchObj)
    (h : ms.length < 10 ∨ ∃ m ∈ ms, m.period ≠ some "FullTime") :
    is_matchweek_complete ms = false := by
  rcases h with hlen | ⟨m, hm, hne⟩
  · rw [← Bool.not_eq_true, is_matchweek_complete_iff]
    rintro ⟨-, -, hcard⟩
    rw [List.card_toFinset] at hcard
    have h1 : (collectTeamIds ms).dedup.length ≤ (collectTeamIds ms).length :=
      (List.dedup_sublist _).length_le
    have h2 := length_collectTeamIds_le ms
    omega
  · rw [← Bool.not_eq_true, is_matchweek_complete_iff]
    rintro ⟨-, hall, -⟩
    exact hne (hall m hm)

/-- Witness for C2 at a concrete input: the empty fixture list (0 < 10
fixtures) is judged incomplete. -/
theorem is_matchweek_complete_false_witness :
    is_matchweek_complete [] = false :=
  is_matchweek_complete_false_of_short_or_unfinished [] (Or.inl (by decide))

/-- Error taxonomy from the spec: `TransportError` for network failures (not
reachable in the embedded pure logic) and `FormatError` for unexpected payload
shape.  The source raises Python `RuntimeError` with a message for the latter. -/
inductive Err where
  | transportError (msg : String)
  | formatError (msg : String)
deriving DecidableEq

/-- A team record inside a standings entry; read by direct indexing
(`team["id"]`, `team["shortName"]`), so the fields are total. -/
structure TeamRec where
  id : String
  shortName : String
deriving DecidableEq

/-- The `overall` record of a standings entry, all read by direct indexing. -/
structure Overall where
  position : Int
  won : Int
  drawn : Int
  lost : Int
  goalsFor : Int
  goalsAgainst : Int
  points : Int
deriving DecidableEq

/-- One element of `tables[0]["entries"]`. -/
structure SEntry where
  overall : Overall
  team : TeamRec
deriving DecidableEq

/-- One element of the standings payload's `tables` collection. -/
structure STable where
  entries : List SEntry
deriving DecidableEq

/-- The standings payload: `tables`, `season.id` and `matchweek`, as used by
`parse_standings`. -/
structure StandingsPayload where
  tables : List STable
  season_id : String
  matchweek : Nat
deriving DecidableEq

/-- `standings_json["tables"][0]["entries"]`; the default is never used
because the code first checks that `tables` is non-empty. -/
def selectedEntries (p : StandingsPayload) : List SEntry :=
  (p.tables.headD { entries := [] }).entries

/-- One output row of Phase A (the dict appended to `all_rows`); its fields
are exactly `PHASE_A_COLS`. -/
structure Row where
  snapshot_utc : String
  season_id : String
  matchweek : Nat
  position : Int
  team_id : String
  team_name : String
  won : Int
  drawn : Int
  lost : Int
  goalsFor : Int
  goalsAgainst : Int
  goal_difference : Int
  points : Int
deriving DecidableEq

/-- The row built for one standings entry inside the `for entry in entries`
loop of `parse_standings`. -/
def mkRow (snapshot_utc : String) (season_id : String) (matchweek : Nat)
    (e : SEntry) : Row :=
  { snapshot_utc := snapshot_utc
    season_id := season_id
    matchweek := matchweek
    position := e.overall.position
    team_id := e.team.id
    team_name := e.team.shortName
    won := e.overall.won
    drawn := e.overall.drawn
    lost := e.overall.lost
    goalsFor := e.overall.goalsFor
    goalsAgainst := e.overall.goalsAgainst
    goal_difference := e.overall.goalsFor - e.overall.goalsAgainst
    points := e.overall.points }

/-- `list(range(1, 21))` as integers: the expected sorted position list. -/
def expectedPositions : List Int := (List.range' 1 20).map fun n => (n : Int)

/-- `parse_standings`, with the fetch of the standings payload and of the
matchweek's fixtures made explicit (`fetchMatches` stands for the
matchweek-matches endpoint).  `snapshot_utc` (the current UTC time) is passed
in.  Mirrors the source's check order: non-empty `tables`; exactly 20
entries; completeness gate returning an empty result; row construction;
empty-row guard; sorted positions must be exactly 1..20. -/
def parse_standings (snapshot_utc : String) (fetchMatches : Nat → List MatchObj)
    (p : StandingsPayload) : Except Err (List Row) :=
  if p.tables.isEmpty then
    .error (.formatError "No tables found in JSON.")
  else if (selectedEntries p).length ≠ 20 then
    .error (.formatError ("Expected 20 entries, got " ++ toString (selectedEntries p).length))
  else if !is_matchweek_complete (fetchMatches p.matchweek) then
    .ok []
  else if ((selectedEntries p).map (mkRow snapshot_utc p.season_id p.matchweek)).isEmpty then
    .error (.formatError "Parsed 0 rows - PL standings structure may have changed.")
  else if (((selectedEntries p).map (mkRow snapshot_utc p.season_id p.matchweek)).map
      fun r => r.position).mergeSort (fun a b => a ≤ b) ≠ expectedPositions then
    .error (.formatError "Positions are not exactly 1...20.")
  else
    .ok ((selectedEntries p).map (mkRow snapshot_utc p.season_id p.matchweek))

/-- C6: with a non-empty tables collection, if the selected table does not
contain exactly 20 entries, `parse_standings` fails with the entry-count
`FormatError` (regardless of matchweek completeness, since this check comes
first). -/
theorem parse_standings_wrong_entry_count (t : String) (fm : Nat → List MatchObj)
    (p : StandingsPayload) (htab : p.tables ≠ [])
    (hlen : (selectedEntries p).length ≠ 20) :
    parse_standings t fm p =
      .error (.formatError ("Expected 20 entries, got " ++
        toString (selectedEntries p).length)) := by
  unfold parse_standings
  rw [if_neg (by simpa [List.isEmpty_iff] using htab), if_pos hlen]

/-- Concrete instance of C6: a payload whose single table has 19 entries is
rejected with the entry-count error. -/
def entryAt (pos : Int) : SEntry :=
  { overall :=
      { position := pos, won := 0, drawn := 0, lost := 0
        goalsFor := 0, goalsAgainst := 0, points := 0 }
    team := { id := "1", shortName := "T" } }

def payload19 : StandingsPayload :=
  { tables := [{ entries := (List.range' 1 19).map fun n => entryAt (n : Int) }]
    season_id := "2025", matchweek := 7 }

theorem parse_standings_wrong_entry_count_witness :
    parse_standings "now" (fun _ => []) payload19 =
      .error (.formatError ("Expected 20 entries, got " ++
        toString (selectedEntries payload19).length)) :=
  parse_standings_wrong_entry_count "now" (fun _ => []) payload19
    (by decide) (by decide)

/-- A completed fixture with distinct synthetic home/away team ids. -/
def fullMatch (i : Nat) : MatchObj :=
  { period := some "FullTime"
    homeTeam := { id := some (toString (2 * i)), shortName := none, name := none }
    awayTeam := { id := some (toString (2 * i + 1)), shortName := none, name := none } }

/-- Ten finished fixtures covering 20 distinct team ids: a complete matchweek. -/
def completeFixtures : List MatchObj := (List.range 10).map fullMatch

/-- A payload whose single table has 20 entries, every one claiming position 1. -/
def payload20dup : StandingsPayload :=
  { tables := [{ entries := List.replicate 20 (entryAt 1) }]
    season_id := "2025", matchweek := 7 }

/-- A payload whose single table has 20 entries with positions 1..20. -/
def payload20good : StandingsPayload :=
  { tables := [{ entries := (List.range' 1 20).map fun n => entryAt (n : Int) }]
    season_id := "2025", matchweek := 7 }

/-- C5 counterexample: a payload whose round is not complete but whose table
has 19 entries makes `parse_standings` raise the entry-count `FormatError`
instead of returning the empty result, because the entry-count check precedes
the completeness gate. -/
theorem parse_standings_incomplete_raises_cex :
    is_matchweek_complete ((fun _ => ([] : List MatchObj)) payload19.matchweek) = false
    ∧ parse_standings "now" (fun _ => []) payload19 ≠ .ok []
    ∧ parse_standings "now" (fun _ => []) payload19 =
        .error (.formatError "Expected 20 entries, got 19") := by
  refine ⟨rfl, ?_, ?_⟩
  · intro h
    rw [show parse_standings "now" (fun _ => []) payload19 =
      .error (.formatError "Expected 20 entries, got 19") from rfl] at h
    exact Except.noConfusion h
  · rfl

/-- C5 (amended): for payloads that pass the structural checks (the selected
table has exactly 20 entries, which forces a non-empty tables collection),
an incomplete matchweek makes `parse_standings` return the empty result
without an error. -/
theorem parse_standings_incomplete_returns_empty (t : String)
    (fm : Nat → List MatchObj) (p : StandingsPayload)
    (hlen : (selectedEntries p).length = 20)
    (hinc : is_matchweek_complete (fm p.matchweek) = false) :
    parse_standings t fm p = .ok [] := by
  have htab : ¬ p.tables.isEmpty := by
    intro h
    rw [List.isEmpty_iff] at h
    simp [selectedEntries, h] at hlen
  unfold parse_standings
  rw [if_neg htab, if_neg (fun hne => hne hlen), if_pos (by simp [hinc])]

/-- Witness for the amended C5 at a concrete input: a well-formed 20-entry
payload with an incomplete matchweek parses to the empty result. -/
theorem parse_standings_incomplete_returns_empty_witness :
    parse_standings "now" (fun _ => []) payload20good = .ok [] :=
  parse_standings_incomplete_returns_empty "now" (fun _ => []) payload20good
    (by decide) rfl

theorem expectedPositions_toFinset :
    expectedPositions.toFinset = Finset.Icc (1 : Int) 20 := by decide

/-- C7 (amended): when the matchweek is complete, a payload whose extracted
positions do not form the set {1,...,20} makes `parse_standings` fail with a
`FormatError` (the position sanity check, or an earlier structural check). -/
theorem parse_standings_bad_positions (t : String) (fm : Nat → List MatchObj)
    (p : StandingsPayload)
    (hcomp : is_matchweek_complete (fm p.matchweek) = true)
    (hpos : ((selectedEntries p).map fun e => e.overall.position).toFinset ≠
      Finset.Icc (1 : Int) 20) :
    ∃ msg, parse_standings t fm p = .error (.formatError msg) := by
  unfold parse_standings
  by_cases htab : p.tables.isEmpty
  · rw [if_pos htab]; exact ⟨_, rfl⟩
  · rw [if_neg htab]
    by_cases hlen : (selectedEntries p).length ≠ 20
    · rw [if_pos hlen]; exact ⟨_, rfl⟩
    · push_neg at hlen
      have hne : selectedEntries p ≠ [] := by
        intro h; rw [h] at hlen; simp at hlen
      have hmm : (((selectedEntries p).map (mkRow t p.season_id p.matchweek)).map
          fun r => r.position) = (selectedEntries p).map fun e => e.overall.position := by
        rw [List.map_map]; rfl
      have hcond : ((((selectedEntries p).map (mkRow t p.season_id p.matchweek)).map
          fun r => r.position).mergeSort fun a b => a ≤ b) ≠ expectedPositions := by
        intro hsorted
        apply hpos
        have hperm : List.Perm ((selectedEntries p).map fun e => e.overall.position)
            expectedPositions := by
          rw [← hmm, ← hsorted]
          exact (List.mergeSort_perm _ _).symm
        rw [List.toFinset_eq_of_perm _ _ hperm]
        exact expectedPositions_toFinset
      rw [if_neg (fun h => h hlen), if_neg (by simp [hcomp]),
        if_neg (by simp [hne]), if_pos hcond]
      exact ⟨_, rfl⟩

/-- Witness for the amended C7 at a concrete input: a complete matchweek and
a 20-entry payload all of whose positions equal 1 is rejected. -/
theorem parse_standings_bad_positions_witness :
    ∃ msg, parse_standings "now" (fun _ => completeFixtures) payload20dup =
      .error (.formatError msg) :=
  parse_standings_bad_positions "now" (fun _ => completeFixtures) payload20dup
    (by decide) (by decide)

/-- C7 counterexample: positions all equal to 1 (so the extracted position set
is not {1,...,20}) but an incomplete matchweek: `parse_standings` returns the
empty result instead of failing, because the completeness gate precedes the
position check. -/
theorem parse_standings_bad_positions_cex :
    (((selectedEntries payload20dup).map fun e => e.overall.position).toFinset ≠
      Finset.Icc (1 : Int) 20)
    ∧ parse_standings "now" (fun _ => []) payload20dup = .ok [] :=
  ⟨by decide, rfl⟩

/-- A persisted snapshot row as appended by `main`: the Phase A columns plus
the Phase B enrichment columns (`COLS`). -/
structure FullRow extends Row where
  next_opponent_id : String
  next_opponent_name : Option String
  is_home_next : Bool
deriving DecidableEq

/-- `append_history(df_new, history_csv)`.  The history file becomes an
`Option (List FullRow)`: `none` when the file does not exist, `some hist`
when it holds rows `hist`; the result is the file state after the call.
Empty input: no-op.  Existing file: skip when the first new row's matchweek
already occurs among the stored matchweeks, otherwise append without header.
Absent file: create it with the new rows. -/
def append_history (df_new : List FullRow) (store : Option (List FullRow)) :
    Option (List FullRow) :=
  match df_new with
  | [] => store
  | first :: _ =>
    match store with
    | some hist =>
      if first.matchweek ∈ hist.map (fun r => r.matchweek) then store
      else some (hist ++ df_new)
    | none => some df_new

/-- C8: appending an empty row-set is a no-op — it neither creates the
history file (absent stays absent) nor modifies it (present rows unchanged). -/
theorem append_history_empty_noop (store : Option (List FullRow)) :
    append_history [] store = store := rfl

/-- C3: for a non-empty row-set all of whose rows carry round number `mw`,
(i) if `mw` already appears in some stored row the append leaves the store
unchanged, and (ii) appending the same row-set twice in succession yields the
same store as appending it once. -/
theorem append_history_idempotent (r : FullRow) (rest : List FullRow)
    (mw : Nat) (hist : List FullRow)
    (hmw : ∀ x ∈ r :: rest, x.matchweek = mw) :
    (mw ∈ hist.map (fun x => x.matchweek) →
      append_history (r :: rest) (some hist) = some hist)
    ∧ ∀ store, append_history (r :: rest) (append_history (r :: rest) store) =
        append_history (r :: rest) store := by
  constructor
  · intro hmem
    have hr : r.matchweek = mw := hmw r (by simp)
    simp only [append_history, hr, if_pos hmem]
  · intro store
    match store with
    | none =>
      show append_history (r :: rest) (some (r :: rest)) = some (r :: rest)
      simp [append_history]
    | some hist =>
      by_cases hmem : r.matchweek ∈ hist.map (fun x => x.matchweek)
      · simp [append_history, hmem]
      · simp only [append_history, if_neg hmem]
        rw [if_pos]
        simp

/-- Witness for C3 at concrete inputs: a single-row set for round 3 appended
to a store already holding round 3 is a no-op, and appending it twice to an
empty (but existing) store equals appending it once. -/
def fr (mw : Nat) : FullRow :=
  { snapshot_utc := "now", season_id := "2025", matchweek := mw, position := 1
    team_id := "1", team_name := "T", won := 0, drawn := 0, lost := 0
    goalsFor := 0, goalsAgainst := 0, goal_difference := 0, points := 0
    next_opponent_id := "2", next_opponent_name := some "U", is_home_next := true }

theorem append_history_idempotent_witness :
    append_history [fr 3] (some [fr 3]) = some [fr 3]
    ∧ append_history [fr 3] (append_history [fr 3] (some [])) =
        append_history [fr 3] (some []) := by
  have h := append_history_idempotent (fr 3) [] 3 [fr 3] (by decide)
  exact ⟨h.1 (by decide), h.2 (some [])⟩

/-- C4: appending a 20-row set, all rows tagged with a round `mw` absent from
a non-empty existing store, appends exactly those 20 rows at the end: the
result is the old rows followed by the new ones, so its length grows by 20
and the old rows are preserved unchanged as a prefix. -/
theorem append_history_fresh_round (rows hist : List FullRow) (mw : Nat)
    (hlen : rows.length = 20)
    (hmw : ∀ x ∈ rows, x.matchweek = mw)
    (hhist : hist ≠ [])
    (hfresh : mw ∉ hist.map (fun x => x.matchweek)) :
    append_history rows (some hist) = some (hist ++ rows)
    ∧ (hist ++ rows).length = hist.length + 20
    ∧ (hist ++ rows).take hist.length = hist := by
  refine ⟨?_, by simp [hlen], by simp⟩
  match rows, hlen with
  | r :: rest, _ =>
    have hr : r.matchweek = mw := hmw r (by simp)
    simp only [append_history, hr, if_neg hfresh]

/-- Witness for C4 at concrete inputs: 20 rows for round 2 appended to a
one-row store holding round 1. -/
theorem append_history_fresh_round_witness :
    append_history (List.replicate 20 (fr 2)) (some [fr 1]) =
      some ([fr 1] ++ List.replicate 20 (fr 2))
    ∧ ([fr 1] ++ List.replicate 20 (fr 2)).length = [fr 1].length + 20
    ∧ ([fr 1] ++ List.replicate 20 (fr 2)).take [fr 1].length = [fr 1] :=
  append_history_fresh_round (List.replicate 20 (fr 2)) [fr 1] 2
    (by decide) (by decide) (by decide) (by decide)

/-- C10: the dedup check of `append_history` is keyed on the first row's
matchweek alone — whenever the first row's matchweek is absent from the
store, the whole row-set is appended, even if later rows carry matchweeks
already stored. -/
theorem append_history_keyed_on_first_row (r : FullRow) (rest hist : List FullRow)
    (hfresh : r.matchweek ∉ hist.map (fun x => x.matchweek)) :
    append_history (r :: rest) (some hist) = some (hist ++ r :: rest) := by
  simp only [append_history, if_neg hfresh]

/-- Witness for C10 at concrete inputs: the store holds round 1; the new
row-set's first row is round 2 but its second row is round 1 (already
recorded); the whole set is appended anyway. -/
theorem append_history_keyed_on_first_row_witness :
    (fr 1).matchweek ∈ ([fr 1].map fun x => x.matchweek)
    ∧ append_history [fr 2, fr 1] (some [fr 1]) = some [fr 1, fr 2, fr 1] :=
  ⟨by decide, append_history_keyed_on_first_row (fr 2) [fr 1] [fr 1] (by decide)⟩

/-- Python `str(x)` applied to an optional JSON value: `str(None)` is the
string `"None"`. -/
def pyStr : Option String → String
  | none => "None"
  | some s => s

/-- Python `a or b` on optional strings: `a` unless `a` is `None` or the
empty string (falsy), in which case `b`. -/
def pyOr (a b : Option String) : Option String :=
  match a with
  | some s => if s = "" then b else some s
  | none => b

/-- The nextfixture match payload as used by `extract_next_opponent`:
`fixture.get("homeTeam", {})` and `fixture.get("awayTeam", {})`. -/
structure FixtureObj where
  homeTeam : TeamObj
  awayTeam : TeamObj
deriving DecidableEq

/-- `extract_next_opponent(team_id, fixture)`: compare the (stringified)
subject team id with the stringified home and away ids, in that order;
return the opposing side's id, display name (`shortName or name`) and the
home flag, or fail with a `FormatError` (Python `RuntimeError`) when the
subject matches neither side. -/
def extract_next_opponent (team_id : String) (fixture : FixtureObj) :
    Except Err (String × Option String × Bool) :=
  if team_id = pyStr fixture.homeTeam.id then
    .ok (pyStr fixture.awayTeam.id,
      pyOr fixture.awayTeam.shortName fixture.awayTeam.name, true)
  else if team_id = pyStr fixture.awayTeam.id then
    .ok (pyStr fixture.homeTeam.id,
      pyOr fixture.homeTeam.shortName fixture.homeTeam.name, false)
  else
    .error (.formatError ("Team " ++ team_id ++ " not found in nextfixture match."))

/-- C9: matching the subject id against the fixture's sides in the source's
order — if it equals the home id, the away side's id, name and home flag
`true` are returned; otherwise if it equals the away id, the home side's id,
name and home flag `false`; otherwise a `FormatError` is raised. -/
theorem extract_next_opponent_cases (team_id : String) (fixture : FixtureObj) :
    (team_id = pyStr fixture.homeTeam.id →
      extract_next_opponent team_id fixture = .ok (pyStr fixture.awayTeam.id,
        pyOr fixture.awayTeam.shortName fixture.awayTeam.name, true))
    ∧ (team_id ≠ pyStr fixture.homeTeam.id → team_id = pyStr fixture.awayTeam.id →
      extract_next_opponent team_id fixture = .ok (pyStr fixture.homeTeam.id,
        pyOr fixture.homeTeam.shortName fixture.homeTeam.name, false))
    ∧ (team_id ≠ pyStr fixture.homeTeam.id → team_id ≠ pyStr fixture.awayTeam.id →
      extract_next_opponent team_id fixture =
        .error (.formatError ("Team " ++ team_id ++ " not found in nextfixture match."))) := by
  refine ⟨fun hh => ?_, fun hh ha => ?_, fun hh ha => ?_⟩
  · simp only [extract_next_opponent, if_pos hh]
  · simp only [extract_next_opponent, if_neg hh, if_pos ha]
  · simp only [extract_next_opponent, if_neg hh, if_neg ha]

/-- A concrete nextfixture payload: home team 10 ("HOM"), away team 11 ("AWA"). -/
def sampleFixture : FixtureObj :=
  { homeTeam := { id := some "10", shortName := some "HOM", name := some "Home FC" }
    awayTeam := { id := some "11", shortName := none, name := some "Away FC" } }

/-- Witness for C9 at concrete inputs: all three cases of
`extract_next_opponent` on `sampleFixture` (note the away name falls back to
`name` since `shortName` is absent). -/
theorem extract_next_opponent_cases_witness :
    extract_next_opponent "10" sampleFixture = .ok ("11", some "Away FC", true)
    ∧ extract_next_opponent "11" sampleFixture = .ok ("10", some "HOM", false)
    ∧ extract_next_opponent "12" sampleFixture =
        .error (.formatError "Team 12 not found in nextfixture match.") :=
  ⟨(extract_next_opponent_cases "10" sampleFixture).1 rfl,
   (extract_next_opponent_cases "11" sampleFixture).2.1 (by decide) rfl,
   (extract_next_opponent_cases "12" sampleFixture).2.2 (by decide) (by decide)⟩
